import Mathlib

/-!
Shallow embedding of the flickmouse gesture-to-throw decision engine and
physics integrator (App.tsx).  Sensor values, timestamps and configuration
are embedded as rationals; kinematic quantities (positions, velocities,
angles) as reals, since the trajectory planner normalizes directions with a
square root and compares angles produced by atan2.  JavaScript numeric
literals are embedded exactly (the development reasons in exact field
arithmetic, not IEEE floats).
-/

namespace Flickmouse

/-- Constants from the top of App.tsx. -/
def ARM_DIRECTION_HISTORY_MAX_AGE_MS : ℚ := 200

def MIN_THROW_SPEED_THRESHOLD : ℝ := 5.0

def TAP_ACTION_DEBOUNCE_MS : ℚ := 100

def ANGULAR_FRICTION_CONSTANT : ℝ := 0.8

def MIN_CONTINUING_ANGULAR_VELOCITY : ℝ := 0.02

def MIN_SEGMENTS_FOR_ENDING_CURVE : ℕ := 2

def FRICTION_FACTOR_HIGH_SPEED : ℝ := 1.4

def FRICTION_FACTOR_LOW_SPEED : ℝ := 6.0

def FRICTION_TRANSITION_MAX_SPEED : ℝ := 300.0

def FLICK_SENSITIVITY_EXPONENT : ℕ := 3

def FLICK_SENSITIVITY_UI_QUADRATIC_A : ℚ := -1.8

def FLICK_SENSITIVITY_UI_QUADRATIC_B : ℚ := 2.8

def BOUNDARY_PADDING : ℝ := 50

/-- One directional sample in ArmDirectionHistory: `{ dx, dy, timestamp }`. -/
structure Sample where
  dx : ℚ
  dy : ℚ
  timestamp : ℚ
deriving DecidableEq, Repr

/-- One path-plan segment: `{ dx, dy, duration }` (direction is unit length,
duration in seconds). -/
structure Segment where
  dx : ℝ
  dy : ℝ
  duration : ℝ

/-- The ThrowPathPlan trait. -/
structure PathPlan where
  segments : List Segment
  currentIndex : ℕ
  activeTimeInSegment : ℝ
  endingAngularVelocity : ℝ

/-- Empty path plan, as written on the non-curveball commit path. -/
def PathPlan.empty : PathPlan :=
  { segments := [], currentIndex := 0, activeTimeInSegment := 0, endingAngularVelocity := 0 }

/-- The koota traits of the watch entity that the decision engine and the
physics integrator read and write, gathered into one explicit state record,
together with the configuration traits and the screen size. -/
structure SimState where
  posX : ℝ
  posY : ℝ
  velX : ℝ
  velY : ℝ
  isThrown : Bool
  isThrowPending : Bool
  history : List Sample
  armDir : Option (ℚ × ℚ)
  lastTapActionTimestamp : ℚ
  plan : PathPlan
  angularVelocityCurve : ℝ
  continuingAngularVelocity : ℝ
  throwStrength : ℚ
  throwWindowMs : ℚ
  lookaheadDelayMs : ℚ
  flickSensitivity : ℚ
  enableCurveball : Bool
  innerWidth : ℝ
  innerHeight : ℝ

/-- The in-window sample query used by executeActualThrowLogic:
`history.samples.filter(s => s.timestamp >= start && s.timestamp <= end)`. -/
def querySamples (history : List Sample) (startMs endMs : ℚ) : List Sample :=
  history.filter (fun s => startMs ≤ s.timestamp ∧ s.timestamp ≤ endMs)

/-- The sample-averaging loop of executeActualThrowLogic: componentwise sum
of dx and dy divided by the number of samples. -/
def averagedDirection (samples : List Sample) : ℚ × ℚ :=
  ((samples.map Sample.dx).sum / (samples.length : ℚ),
   (samples.map Sample.dy).sum / (samples.length : ℚ))

/-- The armDirectionListener: cache the latest instantaneous direction, append
a sample stamped `now`, and prune samples older than
ARM_DIRECTION_HISTORY_MAX_AGE_MS. -/
def armDirectionListener (s : SimState) (dx dy : ℚ) (now : ℚ) : SimState :=
  let pushed := s.history ++ [{ dx := dx, dy := dy, timestamp := now }]
  let pruned := pushed.filter (fun smp => now - smp.timestamp ≤ ARM_DIRECTION_HISTORY_MAX_AGE_MS)
  { s with armDir := some (dx, dy), history := pruned }

/-- Clamp to [0, 1]: `Math.max(0, Math.min(1, x))`. -/
def clamp01 (x : ℚ) : ℚ := max 0 (min 1 x)

/-- The internal flick sensitivity computed by probabilityListener from the
UI sensitivity: the quadratic `A*s^2 + B*s`, clamped to [0, 1]. -/
def flickSensitivityInternal (sensitivityUi : ℚ) : ℚ :=
  clamp01 (FLICK_SENSITIVITY_UI_QUADRATIC_A * sensitivityUi ^ 2 +
    FLICK_SENSITIVITY_UI_QUADRATIC_B * sensitivityUi)

/-- The acceptance threshold of probabilityListener:
`(1 - internalSensitivity) ^ FLICK_SENSITIVITY_EXPONENT`. -/
def probabilityThreshold (sensitivityUi : ℚ) : ℚ :=
  (1 - flickSensitivityInternal sensitivityUi) ^ FLICK_SENSITIVITY_EXPONENT

/-- Whether probabilityListener triggers performThrowOrCatchAction: the whole
check runs only under the guard `currentFlickSensitivityUI > 0`, and then
fires iff `tapProbability >= probabilityThreshold`. -/
def flickClassifierFires (tapProbability sensitivityUi : ℚ) : Bool :=
  decide (0 < sensitivityUi) && decide (probabilityThreshold sensitivityUi ≤ tapProbability)

/-- Stable insertion of a sample into a list sorted by ascending timestamp;
an element is inserted before later-arriving equal timestamps, matching the
stable `Array.prototype.sort` with comparator `a.timestamp - b.timestamp`. -/
def insertByTimestamp (a : Sample) : List Sample → List Sample
  | [] => [a]
  | b :: rest =>
      if b.timestamp ≤ a.timestamp then b :: insertByTimestamp a rest
      else a :: b :: rest

/-- Stable sort of the in-window samples by ascending timestamp
(`[...recentSamples].sort((a, b) => a.timestamp - b.timestamp)`). -/
def sortByTimestamp : List Sample → List Sample
  | [] => []
  | a :: rest => insertByTimestamp a (sortByTimestamp rest)

/-- The path-segment construction loop of executeActualThrowLogic: each
sample of magnitude above 0.001 becomes a unit-direction segment whose
duration is the gap to the next sample in milliseconds over 1000 (floored at
0.02 s), with a fixed 0.2 s duration for the final sample. -/
noncomputable def buildPathSegments : List Sample → List Segment
  | [] => []
  | a :: rest =>
      let mag := Real.sqrt ((a.dx : ℝ) ^ 2 + (a.dy : ℝ) ^ 2)
      let tail := buildPathSegments rest
      if 0.001 < mag then
        let dur : ℝ :=
          match rest with
          | [] => 0.2
          | b :: _ => max 0.02 (((b.timestamp - a.timestamp : ℚ) : ℝ) / 1000)
        { dx := (a.dx : ℝ) / mag, dy := (a.dy : ℝ) / mag, duration := dur } :: tail
      else tail

/-- Math.atan2 on reals: the argument of the complex number x + y*i, landing
in (-pi, pi], with atan2 0 0 = 0, exactly as in JavaScript. -/
noncomputable def atan2 (y x : ℝ) : ℝ := Complex.arg ⟨x, y⟩

/-- The `while (angleDiff > PI) ...; while (angleDiff < -PI) ...`
normalization of executeActualThrowLogic.  Both inputs are atan2 values in
(-pi, pi], so their difference lies in (-2*pi, 2*pi) and a single correction
step reproduces the loops. -/
noncomputable def wrapAngle (a : ℝ) : ℝ :=
  if Real.pi < a then a - 2 * Real.pi
  else if a < -Real.pi then a + 2 * Real.pi
  else a

/-- The instantaneous angular velocity of one adjacent segment pair: the
wrapped signed angle difference divided by the second segment's duration
(0.02 when that duration is at most 0.001). -/
noncomputable def pairAngularVelocity (seg1 seg2 : Segment) : ℝ :=
  let angle1 := atan2 seg1.dy seg1.dx
  let angle2 := atan2 seg2.dy seg2.dx
  let angleDiff := wrapAngle (angle2 - angle1)
  let relevantDuration := if 0.001 < seg2.duration then seg2.duration else 0.02
  angleDiff / relevantDuration

/-- The accumulator loop over adjacent segment pairs, started at index i:
returns (weightedSumAngularVelocity, sumOfWeights, numAngleDiffsCalculated),
where the pair starting at index i receives weight i + 1. -/
noncomputable def endingCurveAux : List Segment → ℕ → ℝ × ℝ × ℕ
  | seg1 :: seg2 :: rest, i =>
      let acc := endingCurveAux (seg2 :: rest) (i + 1)
      (acc.1 + pairAngularVelocity seg1 seg2 * ((i : ℝ) + 1),
       acc.2.1 + ((i : ℝ) + 1),
       acc.2.2 + 1)
  | _, _ => (0, 0, 0)

/-- The exit-spin estimate of executeActualThrowLogic: the weighted average
of the pair angular velocities when at least MIN_SEGMENTS_FOR_ENDING_CURVE
segments exist (and the accumulators are positive), 0 otherwise. -/
noncomputable def calculatedEndingAngularVelocity (segs : List Segment) : ℝ :=
  if MIN_SEGMENTS_FOR_ENDING_CURVE ≤ segs.length then
    let acc := endingCurveAux segs 0
    if 0 < acc.2.2 ∧ 0 < acc.2.1 then acc.1 / acc.2.1 else 0
  else 0

/-- The commit routine executeActualThrowLogic of App.tsx (part_001): abort
if already thrown; average the in-window samples (falling back to the cached
instantaneous ArmDirection, aborting when neither exists); in curveball mode
with samples, build the path plan and override the direction with the first
segment; finally set velocity = direction * throwStrength and mark thrown. -/
noncomputable def executeActualThrowLogic (s : SimState) (tapTimestamp : ℚ) : SimState :=
  if s.isThrown = true then s
  else
    let historyStartTime := tapTimestamp - s.throwWindowMs
    let historyEndTime := tapTimestamp + s.lookaheadDelayMs
    let recentSamples := querySamples s.history historyStartTime historyEndTime
    let throwBase : Option (ℚ × ℚ) :=
      if recentSamples = [] then s.armDir
      else some (averagedDirection recentSamples)
    match throwBase with
    | none => { s with isThrown := false }
    | some base =>
        let withPlan : SimState × ℝ × ℝ :=
          if s.enableCurveball = true ∧ recentSamples ≠ [] then
            let sortedSamples := sortByTimestamp recentSamples
            let pathSegments := buildPathSegments sortedSamples
            match pathSegments with
            | seg0 :: rest =>
                let calculatedEnding := calculatedEndingAngularVelocity (seg0 :: rest)
                ({ s with
                    plan := { segments := seg0 :: rest, currentIndex := 0,
                              activeTimeInSegment := 0,
                              endingAngularVelocity := calculatedEnding },
                    continuingAngularVelocity := calculatedEnding,
                    angularVelocityCurve := 0 },
                 seg0.dx, seg0.dy)
            | [] =>
                ({ s with
                    plan := PathPlan.empty,
                    continuingAngularVelocity := 0,
                    angularVelocityCurve := 0 },
                 (base.1 : ℝ), (base.2 : ℝ))
          else
            ({ s with
                plan := PathPlan.empty,
                angularVelocityCurve := 0,
                continuingAngularVelocity := 0 },
             (base.1 : ℝ), (base.2 : ℝ))
        { withPlan.1 with
            velX := withPlan.2.1 * (s.throwStrength : ℝ),
            velY := withPlan.2.2 * (s.throwStrength : ℝ),
            isThrown := true }

/-- The earlier revision of executeActualThrowLogic (part_000, no curveball
mode): identical sample averaging and fallback, but a computed zero throw
vector aborts the commit, leaving the mouse stationary with zero velocity. -/
def executeActualThrowLogicLegacy (s : SimState) (tapTimestamp : ℚ) : SimState :=
  if s.isThrown = true then s
  else
    let recentSamples := querySamples s.history (tapTimestamp - s.throwWindowMs)
      (tapTimestamp + s.lookaheadDelayMs)
    let throwBase : Option (ℚ × ℚ) :=
      if recentSamples = [] then s.armDir
      else some (averagedDirection recentSamples)
    match throwBase with
    | none => { s with isThrown := false }
    | some base =>
        if base.1 = 0 ∧ base.2 = 0 then
          { s with isThrown := false, velX := 0, velY := 0 }
        else
          { s with
              velX := (base.1 : ℝ) * (s.throwStrength : ℝ),
              velY := (base.2 : ℝ) * (s.throwStrength : ℝ),
              isThrown := true }

/-- The catch branch of performThrowOrCatchAction (the `isCurrentlyThrown`
case): drop the thrown flag, zero the velocity, and clear a pending
lookahead throw if one is marked. -/
def catchMouse (s : SimState) : SimState :=
  let s1 := { s with isThrown := false, velX := 0, velY := 0 }
  if s1.isThrowPending = true then { s1 with isThrowPending := false } else s1

/-- The body of the setTimeout callback scheduled by the lookahead branch of
performThrowOrCatchAction, with the captured tapTimestamp: run the commit
only if the throw is still pending, then unconditionally clear the pending
flag. -/
noncomputable def deferredFire (s : SimState) (tapTimestamp : ℚ) : SimState :=
  let s1 := if s.isThrowPending = true then executeActualThrowLogic s tapTimestamp else s
  { s1 with isThrowPending := false }

/-- performThrowOrCatchAction of App.tsx: debounce against the shared
module-level lastTapActionTimestamp; ignore the action when a throw is
already pending; catch when thrown; otherwise throw, either immediately or
by scheduling the deferred commit after the lookahead delay.  The second
component is the tapTimestamp of a newly scheduled deferred commit, if any. -/
noncomputable def performThrowOrCatchAction (s : SimState) (now : ℚ) : SimState × Option ℚ :=
  if now - s.lastTapActionTimestamp < TAP_ACTION_DEBOUNCE_MS then (s, none)
  else
    let s1 := { s with lastTapActionTimestamp := now }
    if s1.isThrowPending = true then (s1, none)
    else if s1.isThrown = true then (catchMouse s1, none)
    else if 0 < s1.lookaheadDelayMs then ({ s1 with isThrowPending := true }, some now)
    else (executeActualThrowLogic s1 now, none)

/-- A gesture trigger source: the discrete SDK tap event, or a per-frame
flick probability routed through the classifier in probabilityListener. -/
inductive TriggerSource
  | tap : TriggerSource
  | flick : ℚ → TriggerSource

/-- Whether a trigger source invokes performThrowOrCatchAction at all: the
tap listener always does, the probability listener only when the classifier
fires. -/
def triggerInvokes (s : SimState) : TriggerSource → Bool
  | TriggerSource.tap => true
  | TriggerSource.flick p => flickClassifierFires p s.flickSensitivity

/-- One inbound gesture event from either source, at time `now`. -/
noncomputable def triggerStep (s : SimState) (e : TriggerSource) (now : ℚ) :
    SimState × Option ℚ :=
  if triggerInvokes s e = true then performThrowOrCatchAction s now else (s, none)

/-- An action attempt from source `e` at time `now` is allowed to proceed
when the source invokes performThrowOrCatchAction and the shared debounce
clock admits it. -/
def triggerAllowed (s : SimState) (e : TriggerSource) (now : ℚ) : Prop :=
  triggerInvokes s e = true ∧ TAP_ACTION_DEBOUNCE_MS ≤ now - s.lastTapActionTimestamp

/-- The path plan is active for the tick:
`enableCurveball && segments.length > 0 && currentIndex < segments.length`. -/
def planIsActive (enableCurveball : Bool) (plan : PathPlan) : Prop :=
  enableCurveball = true ∧ 0 < plan.segments.length ∧
    plan.currentIndex < plan.segments.length

instance (b : Bool) (p : PathPlan) : Decidable (planIsActive b p) := by
  unfold planIsActive; infer_instance

/-- The speed-dependent translational friction factor of the tick: the
low-speed constant at or below the minimum throw speed, the high-speed
constant at or above the transition ceiling, and the linear interpolation in
between. -/
noncomputable def dynamicFrictionFactor (speed : ℝ) : ℝ :=
  if speed ≤ MIN_THROW_SPEED_THRESHOLD then FRICTION_FACTOR_LOW_SPEED
  else if FRICTION_TRANSITION_MAX_SPEED ≤ speed then FRICTION_FACTOR_HIGH_SPEED
  else
    let speedRatio := (speed - MIN_THROW_SPEED_THRESHOLD) /
      (FRICTION_TRANSITION_MAX_SPEED - MIN_THROW_SPEED_THRESHOLD)
    FRICTION_FACTOR_LOW_SPEED +
      (FRICTION_FACTOR_HIGH_SPEED - FRICTION_FACTOR_LOW_SPEED) * speedRatio

/-- The two sequential boundary checks of one axis: snap to the low edge
zeroing the velocity, then to the high edge zeroing the velocity. -/
noncomputable def clampAxis (pos lo hi vel : ℝ) : ℝ × ℝ :=
  let a := if pos < lo then (lo, (0 : ℝ)) else (pos, vel)
  if hi < a.1 then (hi, 0) else a

/-- The tail of the useFrame body, from the translational-friction step on:
scale both velocity components by `1 - dynamicFrictionFactor * delta`, stop
(drop the thrown flag and zero the velocity) when the speed after friction
falls below the minimum, clamp both axes to the padded play area (zeroing a
clamped axis's velocity), and store the updated plan and continuing angular
velocity. -/
noncomputable def frictionStopClamp (s : SimState) (delta newX0 newY0 currentSpeed : ℝ)
    (v2 : ℝ × ℝ) (plan1 : PathPlan) (cont1 : ℝ) : SimState :=
  let frictionScale := 1 - dynamicFrictionFactor currentSpeed * delta
  let v3 := (v2.1 * frictionScale, v2.2 * frictionScale)
  let speedAfterFriction := Real.sqrt (v3.1 ^ 2 + v3.2 ^ 2)
  let stopStep : Bool × ℝ × ℝ :=
    if speedAfterFriction < MIN_THROW_SPEED_THRESHOLD then (false, 0, 0)
    else (true, v3.1, v3.2)
  let clampX := clampAxis newX0 BOUNDARY_PADDING (s.innerWidth - BOUNDARY_PADDING)
    stopStep.2.1
  let clampY := clampAxis newY0 BOUNDARY_PADDING (s.innerHeight - BOUNDARY_PADDING)
    stopStep.2.2
  { s with
      posX := clampX.1, posY := clampY.1,
      velX := clampX.2, velY := clampY.2,
      isThrown := stopStep.1,
      plan := plan1,
      continuingAngularVelocity := cont1 }

/-- The useFrame body of R3FMouseCursor for one rendered frame of elapsed
time `delta`, run only while thrown: integrate position, play back the path
plan (re-aiming at the current speed), apply the continuing angular velocity
once the plan is exhausted, then apply the friction / stop / clamp tail.
The plan object is mutated in place in the source, so the isPathPlanActive
re-read after plan playback observes the already-advanced currentIndex. -/
noncomputable def useFrameTick (s : SimState) (delta : ℝ) : SimState :=
  if s.isThrown = true then
    let newX0 := s.posX + s.velX * delta
    let newY0 := s.posY + s.velY * delta
    let currentSpeed := Real.sqrt (s.velX ^ 2 + s.velY ^ 2)
    let planStep : (ℝ × ℝ) × PathPlan :=
      if planIsActive s.enableCurveball s.plan then
        let segment := s.plan.segments.getD s.plan.currentIndex
          { dx := 0, dy := 0, duration := 0 }
        let v := if 0.01 < currentSpeed then
            (segment.dx * currentSpeed, segment.dy * currentSpeed)
          else (s.velX, s.velY)
        let t := s.plan.activeTimeInSegment + delta
        let plan' :=
          if segment.duration ≤ t then
            { s.plan with currentIndex := s.plan.currentIndex + 1, activeTimeInSegment := 0 }
          else { s.plan with activeTimeInSegment := t }
        (v, plan')
      else ((s.velX, s.velY), s.plan)
    let v1 := planStep.1
    let plan1 := planStep.2
    let spinStep : (ℝ × ℝ) × ℝ :=
      if s.enableCurveball = true ∧ ¬ planIsActive s.enableCurveball plan1 ∧
          MIN_THROW_SPEED_THRESHOLD < currentSpeed then
        if s.continuingAngularVelocity ≠ 0 then
          let angleDelta := s.continuingAngularVelocity * delta
          let cosA := Real.cos angleDelta
          let sinA := Real.sin angleDelta
          let rotated := (v1.1 * cosA - v1.2 * sinA, v1.1 * sinA + v1.2 * cosA)
          let next := s.continuingAngularVelocity * (1 - ANGULAR_FRICTION_CONSTANT * delta)
          (rotated, if |next| < MIN_CONTINUING_ANGULAR_VELOCITY then 0 else next)
        else (v1, s.continuingAngularVelocity)
      else (v1, s.continuingAngularVelocity)
    frictionStopClamp s delta newX0 newY0 currentSpeed spinStep.1 plan1 spinStep.2
  else s

/-- A concrete watch-entity state used to instantiate theorems: the mouse at
rest in the middle of an 800 x 600 window, default configuration of the
settings panel with throwStrength 500, lookahead 0 and curveball off. -/
def baseState : SimState where
  posX := 100
  posY := 100
  velX := 0
  velY := 0
  isThrown := false
  isThrowPending := false
  history := []
  armDir := none
  lastTapActionTimestamp := 0
  plan := PathPlan.empty
  angularVelocityCurve := 0
  continuingAngularVelocity := 0
  throwStrength := 500
  throwWindowMs := 50
  lookaheadDelayMs := 0
  flickSensitivity := 0
  enableCurveball := false
  innerWidth := 800
  innerHeight := 600

/-- A curveball-enabled variant of the base state with a single in-window
sample of direction (2, 0): the averaged direction is (2, 0) but the path
plan normalizes it to unit length. -/
def curveballSampleState : SimState :=
  { baseState with
      history := [{ dx := 2, dy := 0, timestamp := 0 }],
      enableCurveball := true }

/-- The base state in flight: thrown with velocity (500, 0). -/
def flyingState : SimState := { baseState with isThrown := true, velX := 500 }

/-- A flying state on a very wide screen, so that a large integration step
does not reach the right boundary. -/
def fastFlyingState : SimState :=
  { baseState with
      isThrown := true,
      velX := 500,
      innerWidth := 10000 }

/-- Placeholder segment for out-of-range list reads. -/
def defaultSegment : Segment := { dx := 0, dy := 0, duration := 0 }

/-- Closed-form exit-spin estimate following the wording of the spec: the
weighted average over adjacent segment pairs (segs[i], segs[i+1]) of their
instantaneous angular velocities, where pair i receives weight i + 1. -/
noncomputable def specEndingAngularVelocity (segs : List Segment) : ℝ :=
  (∑ i ∈ Finset.range (segs.length - 1),
      pairAngularVelocity (segs.getD i defaultSegment) (segs.getD (i + 1) defaultSegment) *
        ((i : ℝ) + 1)) /
  (∑ i ∈ Finset.range (segs.length - 1), ((i : ℝ) + 1))

/-- The commit routine never touches the module-level debounce timestamp. -/
theorem executeActualThrowLogic_lastTap (s : SimState) (t : ℚ) :
    (executeActualThrowLogic s t).lastTapActionTimestamp = s.lastTapActionTimestamp := by
  unfold executeActualThrowLogic
  split
  · rfl
  · dsimp only
    split
    · rfl
    · split
      · split <;> rfl
      · rfl

/-- The catch branch never touches the module-level debounce timestamp. -/
theorem catchMouse_lastTap (s : SimState) :
    (catchMouse s).lastTapActionTimestamp = s.lastTapActionTimestamp := by
  unfold catchMouse
  dsimp only
  split <;> rfl

/-- The debounce timestamp after performThrowOrCatchAction: unchanged when
the call is debounced, reset to `now` in every other case (catch, ignored
pending, scheduled throw, immediate throw). -/
theorem performThrowOrCatchAction_lastTap (s : SimState) (now : ℚ) :
    (performThrowOrCatchAction s now).1.lastTapActionTimestamp =
      if now - s.lastTapActionTimestamp < TAP_ACTION_DEBOUNCE_MS then
        s.lastTapActionTimestamp
      else now := by
  unfold performThrowOrCatchAction
  split
  · simp
  · rename_i hdeb
    simp only [if_neg hdeb]
    split
    · rfl
    · split
      · simp only [catchMouse_lastTap]
      · split
        · rfl
        · rw [executeActualThrowLogic_lastTap]

/-- Closed form of the commit with curveball disabled and at least one
in-window sample: the path plan is reset, the averaged direction scaled by
the throw strength becomes the velocity, and the mouse is marked thrown. -/
theorem executeActualThrowLogic_noCurveball (s : SimState) (tapTimestamp : ℚ)
    (hthrown : s.isThrown = false) (hcb : s.enableCurveball = false)
    (hsamp : querySamples s.history (tapTimestamp - s.throwWindowMs)
        (tapTimestamp + s.lookaheadDelayMs) ≠ []) :
    executeActualThrowLogic s tapTimestamp =
      { s with
          plan := PathPlan.empty,
          angularVelocityCurve := 0,
          continuingAngularVelocity := 0,
          velX := ((averagedDirection (querySamples s.history
              (tapTimestamp - s.throwWindowMs) (tapTimestamp + s.lookaheadDelayMs))).1 : ℝ) *
            (s.throwStrength : ℝ),
          velY := ((averagedDirection (querySamples s.history
              (tapTimestamp - s.throwWindowMs) (tapTimestamp + s.lookaheadDelayMs))).2 : ℝ) *
            (s.throwStrength : ℝ),
          isThrown := true } := by
  unfold executeActualThrowLogic
  rw [if_neg (by rw [hthrown]; simp)]
  dsimp only
  rw [if_neg hsamp]
  dsimp only
  rw [if_neg (by rw [hcb]; simp)]

/-- A debounced call to performThrowOrCatchAction returns immediately with
the state untouched and nothing scheduled. -/
theorem performThrowOrCatchAction_debounced (s : SimState) (now : ℚ)
    (h : now - s.lastTapActionTimestamp < TAP_ACTION_DEBOUNCE_MS) :
    performThrowOrCatchAction s now = (s, none) := by
  unfold performThrowOrCatchAction
  rw [if_pos h]

/-- C6: when a catch fires while a lookahead throw is still pending, the
deferred commit that fires afterwards observes the cleared pending flag,
skips the commit, and leaves the object Idle with the pending flag down. -/
theorem C6_catch_wins_over_pending_deferred (s : SimState) (t : ℚ)
    (h : s.isThrowPending = true) :
    (deferredFire (catchMouse s) t).isThrown = false ∧
      (deferredFire (catchMouse s) t).isThrowPending = false := by
  have hc : (catchMouse s).isThrowPending = false := by
    unfold catchMouse
    dsimp only
    split <;> simp_all
  have hthrown : (catchMouse s).isThrown = false := by
    unfold catchMouse
    dsimp only
    split <;> rfl
  unfold deferredFire
  dsimp only
  rw [if_neg (by rw [hc]; simp)]
  exact ⟨hthrown, rfl⟩

/-- C6 witness: a concrete pending state, caught, then hit by the deferred
action, ends Idle. -/
theorem C6_catch_wins_over_pending_deferred_witness :
    ({ baseState with isThrowPending := true } : SimState).isThrowPending = true ∧
      ((deferredFire (catchMouse { baseState with isThrowPending := true }) 0).isThrown = false ∧
        (deferredFire (catchMouse { baseState with isThrowPending := true }) 0).isThrowPending = false) :=
  ⟨rfl, C6_catch_wins_over_pending_deferred { baseState with isThrowPending := true } 0 rfl⟩

/-- C7: two action attempts, from either the discrete tap source or the
classified flick source, whose timestamps differ by less than the shared
debounce interval are never both allowed to proceed. -/
theorem C7_sharedDebounce_at_most_one_allowed (s : SimState) (e1 e2 : TriggerSource)
    (t1 t2 : ℚ) (h : |t2 - t1| < TAP_ACTION_DEBOUNCE_MS) :
    ¬ (triggerAllowed s e1 t1 ∧ triggerAllowed (triggerStep s e1 t1).1 e2 t2) := by
  rintro ⟨⟨hi1, hd1⟩, ⟨hi2, hd2⟩⟩
  have hstep : (triggerStep s e1 t1).1.lastTapActionTimestamp = t1 := by
    unfold triggerStep
    rw [if_pos hi1, performThrowOrCatchAction_lastTap, if_neg (not_lt.mpr hd1)]
  rw [hstep] at hd2
  have habs := le_abs_self (t2 - t1)
  linarith

/-- C7 witness: a tap at t = 100 followed by a tap at t = 150 from the base
state cannot both be allowed. -/
theorem C7_sharedDebounce_at_most_one_allowed_witness :
    |(150 : ℚ) - 100| < TAP_ACTION_DEBOUNCE_MS ∧
      ¬ (triggerAllowed baseState TriggerSource.tap 100 ∧
          triggerAllowed (triggerStep baseState TriggerSource.tap 100).1 TriggerSource.tap 150) :=
  ⟨by norm_num [TAP_ACTION_DEBOUNCE_MS],
    C7_sharedDebounce_at_most_one_allowed baseState TriggerSource.tap TriggerSource.tap 100 150
      (by norm_num [TAP_ACTION_DEBOUNCE_MS])⟩

/-- C10: an action attempt that passes the debounce check resets the shared
debounce timestamp to its own time, in every branch (including the
ignored-while-pending branch and aborted commits), so any further attempt
within the debounce interval of it is denied with the state unchanged. -/
theorem C10_passed_attempt_resets_debounce (s : SimState) (now : ℚ)
    (h : TAP_ACTION_DEBOUNCE_MS ≤ now - s.lastTapActionTimestamp) :
    (performThrowOrCatchAction s now).1.lastTapActionTimestamp = now ∧
      ∀ t2 : ℚ, t2 - now < TAP_ACTION_DEBOUNCE_MS →
        performThrowOrCatchAction (performThrowOrCatchAction s now).1 t2 =
          ((performThrowOrCatchAction s now).1, none) := by
  have h1 : (performThrowOrCatchAction s now).1.lastTapActionTimestamp = now := by
    rw [performThrowOrCatchAction_lastTap, if_neg (not_lt.mpr h)]
  refine ⟨h1, fun t2 ht2 => ?_⟩
  exact performThrowOrCatchAction_debounced _ t2 (by rw [h1]; exact ht2)

/-- C10 witness: with a throw already pending, an attempt at t = 100 is
ignored but still resets the debounce clock, denying an attempt at t = 150. -/
theorem C10_passed_attempt_resets_debounce_witness :
    TAP_ACTION_DEBOUNCE_MS ≤ (100 : ℚ) -
        ({ baseState with isThrowPending := true } : SimState).lastTapActionTimestamp ∧
      ((performThrowOrCatchAction { baseState with isThrowPending := true } 100).1.lastTapActionTimestamp = 100 ∧
        ∀ t2 : ℚ, t2 - 100 < TAP_ACTION_DEBOUNCE_MS →
          performThrowOrCatchAction (performThrowOrCatchAction { baseState with isThrowPending := true } 100).1 t2 =
            ((performThrowOrCatchAction { baseState with isThrowPending := true } 100).1, none)) :=
  ⟨by norm_num [TAP_ACTION_DEBOUNCE_MS, baseState],
    C10_passed_attempt_resets_debounce { baseState with isThrowPending := true } 100
      (by norm_num [TAP_ACTION_DEBOUNCE_MS, baseState])⟩

/-- C9: for sensitivities in [0,1] the flick classifier fires iff the tap
probability reaches the threshold `(1 - internalSensitivity) ^ exponent`
(whenever the sensitivity is strictly positive), never fires from
probability alone at sensitivity 0, and the UI-to-internal remapping curve
is monotone on [0,1]. -/
theorem C9_flickClassifier_spec :
    (∀ p sUi : ℚ, 0 < sUi →
        (flickClassifierFires p sUi = true ↔
          (1 - flickSensitivityInternal sUi) ^ FLICK_SENSITIVITY_EXPONENT ≤ p)) ∧
    (∀ p : ℚ, flickClassifierFires p 0 = false) ∧
    (∀ a b : ℚ, 0 ≤ a → a ≤ b → b ≤ 1 →
        flickSensitivityInternal a ≤ flickSensitivityInternal b) := by
  refine ⟨?_, ?_, ?_⟩
  · intro p sUi hs
    simp [flickClassifierFires, probabilityThreshold, hs]
  · intro p
    simp [flickClassifierFires]
  · intro a b ha hab hb1
    unfold flickSensitivityInternal clamp01 FLICK_SENSITIVITY_UI_QUADRATIC_A
      FLICK_SENSITIVITY_UI_QUADRATIC_B
    by_cases hcase : a + b ≤ 14 / 9
    · have hq : (-1.8 : ℚ) * a ^ 2 + 2.8 * a ≤ (-1.8 : ℚ) * b ^ 2 + 2.8 * b := by
        nlinarith [mul_nonneg (sub_nonneg.mpr hab) (sub_nonneg.mpr hcase)]
      exact max_le_max (le_refl 0) (min_le_min (le_refl 1) hq)
    · have hq1 : (1 : ℚ) ≤ (-1.8 : ℚ) * b ^ 2 + 2.8 * b := by
        nlinarith [mul_nonneg (by linarith : (0 : ℚ) ≤ 1 - b)
          (by linarith : (0 : ℚ) ≤ b - 5 / 9)]
      have h2 : max (0 : ℚ) (min 1 ((-1.8 : ℚ) * b ^ 2 + 2.8 * b)) = 1 := by
        rw [min_eq_left hq1]
        exact max_eq_right (by norm_num)
      rw [h2]
      exact max_le (by norm_num) (min_le_left _ _)

/-- C9 witness: at sensitivity 1 the internal sensitivity saturates at 1,
the threshold collapses, and a probability of 1 fires the classifier. -/
theorem C9_flickClassifier_spec_witness :
    (0 : ℚ) < 1 ∧
      (flickClassifierFires 1 1 = true ↔
        (1 - flickSensitivityInternal 1) ^ FLICK_SENSITIVITY_EXPONENT ≤ 1) :=
  ⟨by norm_num, C9_flickClassifier_spec.1 1 1 (by norm_num)⟩

/-- C8 counterexample: pruning happens only on insert, so a query whose
`now` lies later than the last insert can return a sample older than
ARM_DIRECTION_HISTORY_MAX_AGE_MS at query time.  One sample recorded at
t = 0 survives the insert-time pruning, and a query at now = 500 with a
1000 ms throw window returns it, aged 500 > 200. -/
theorem C8_queryAge_counterexample :
    querySamples (armDirectionListener baseState 1 0 0).history (500 - 1000) 500 =
      [{ dx := 1, dy := 0, timestamp := 0 }] ∧
    ¬ ((500 : ℚ) - (0 : ℚ) ≤ ARM_DIRECTION_HISTORY_MAX_AGE_MS) := by
  constructor
  · norm_num [querySamples, armDirectionListener, baseState, List.filter,
      ARM_DIRECTION_HISTORY_MAX_AGE_MS]
  · norm_num [ARM_DIRECTION_HISTORY_MAX_AGE_MS]

/-- C8 as amended: every sample a query returns after a record at time `now`
satisfies the age-window invariant relative to that most recent insert time
(rather than the query time), because armDirectionListener prunes on every
insert and the query filter only selects among retained samples. -/
theorem C8_queryAge_invariant_at_insert (s : SimState) (dx dy now a b : ℚ)
    (smp : Sample)
    (h : smp ∈ querySamples (armDirectionListener s dx dy now).history a b) :
    now - smp.timestamp ≤ ARM_DIRECTION_HISTORY_MAX_AGE_MS := by
  unfold querySamples at h
  have h2 := (List.mem_filter.mp h).1
  unfold armDirectionListener at h2
  dsimp only at h2
  have h3 := (List.mem_filter.mp h2).2
  simpa using h3

/-- C8 witness: the freshly recorded sample is returned by an in-window
query and satisfies the invariant at the insert time. -/
theorem C8_queryAge_invariant_at_insert_witness :
    ({ dx := 1, dy := 0, timestamp := 0 } : Sample) ∈
        querySamples (armDirectionListener baseState 1 0 0).history (-100) 100 ∧
      (0 : ℚ) - ({ dx := 1, dy := 0, timestamp := 0 } : Sample).timestamp ≤
        ARM_DIRECTION_HISTORY_MAX_AGE_MS := by
  have hmem : ({ dx := 1, dy := 0, timestamp := 0 } : Sample) ∈
      querySamples (armDirectionListener baseState 1 0 0).history (-100) 100 := by
    norm_num [querySamples, armDirectionListener, baseState, List.filter,
      ARM_DIRECTION_HISTORY_MAX_AGE_MS]
  exact ⟨hmem,
    C8_queryAge_invariant_at_insert baseState 1 0 0 (-100) 100
      { dx := 1, dy := 0, timestamp := 0 } hmem⟩

/-- C2 (code bug): the current executeActualThrowLogic has no zero-vector
abort: committing with a single in-window sample of direction (0, 0) sets
the state Flying with velocity exactly (0, 0), where the claim (and the
earlier revision of the same function, which aborts with the mouse left
stationary) demands the state remain Idle. -/
theorem C2_zero_direction_commit_sets_flying :
    (executeActualThrowLogic
        { baseState with history := [{ dx := 0, dy := 0, timestamp := 0 }] } 10).isThrown = true ∧
    (executeActualThrowLogic
        { baseState with history := [{ dx := 0, dy := 0, timestamp := 0 }] } 10).velX = 0 ∧
    (executeActualThrowLogic
        { baseState with history := [{ dx := 0, dy := 0, timestamp := 0 }] } 10).velY = 0 ∧
    (executeActualThrowLogicLegacy
        { baseState with history := [{ dx := 0, dy := 0, timestamp := 0 }] } 10).isThrown = false ∧
    (executeActualThrowLogicLegacy
        { baseState with history := [{ dx := 0, dy := 0, timestamp := 0 }] } 10).velX = 0 ∧
    (executeActualThrowLogicLegacy
        { baseState with history := [{ dx := 0, dy := 0, timestamp := 0 }] } 10).velY = 0 := by
  have hsamp : querySamples
      ({ baseState with history := [{ dx := 0, dy := 0, timestamp := 0 }] } : SimState).history
      (10 - ({ baseState with
          history := [{ dx := 0, dy := 0, timestamp := 0 }] } : SimState).throwWindowMs)
      (10 + ({ baseState with
          history := [{ dx := 0, dy := 0, timestamp := 0 }] } : SimState).lookaheadDelayMs) ≠ [] := by
    show querySamples [({ dx := 0, dy := 0, timestamp := 0 } : Sample)] (10 - 50) (10 + 0) ≠ []
    norm_num [querySamples, List.filter]
  have hc := executeActualThrowLogic_noCurveball
    { baseState with history := [{ dx := 0, dy := 0, timestamp := 0 }] } 10 rfl rfl hsamp
  rw [hc]
  refine ⟨rfl, ?_, ?_, ?_, ?_, ?_⟩
  · norm_num [querySamples, List.filter, averagedDirection, baseState]
  · norm_num [querySamples, List.filter, averagedDirection, baseState]
  · unfold executeActualThrowLogicLegacy
    norm_num [querySamples, List.filter, baseState, averagedDirection]
  · unfold executeActualThrowLogicLegacy
    norm_num [querySamples, List.filter, baseState, averagedDirection]
  · unfold executeActualThrowLogicLegacy
    norm_num [querySamples, List.filter, baseState, averagedDirection]

/-- C1 counterexample: with curveball mode enabled, a commit from Idle with
one in-window sample (2, 0) sets velocity (500, 0) — the first path-plan
segment's unit direction times the strength — not the componentwise average
(2, 0) times the strength, which would be (1000, 0). -/
theorem C1_curveball_commit_velocity_counterexample :
    (executeActualThrowLogic curveballSampleState 10).isThrown = true ∧
    (executeActualThrowLogic curveballSampleState 10).velX = 500 ∧
    ((averagedDirection (querySamples curveballSampleState.history
        (10 - 50) (10 + 0))).1 : ℝ) * (curveballSampleState.throwStrength : ℝ) = 1000 ∧
    (500 : ℝ) ≠ 1000 := by
  have hm4 : Real.sqrt 4 = 2 := by
    rw [show (4 : ℝ) = 2 ^ 2 by norm_num]
    exact Real.sqrt_sq (by norm_num)
  refine ⟨?_, ?_, ?_, by norm_num⟩
  · norm_num [executeActualThrowLogic, querySamples, List.filter, sortByTimestamp,
      insertByTimestamp, buildPathSegments, hm4, calculatedEndingAngularVelocity,
      MIN_SEGMENTS_FOR_ENDING_CURVE, curveballSampleState, baseState, averagedDirection]
  · norm_num [executeActualThrowLogic, querySamples, List.filter, sortByTimestamp,
      insertByTimestamp, buildPathSegments, hm4, calculatedEndingAngularVelocity,
      MIN_SEGMENTS_FOR_ENDING_CURVE, curveballSampleState, baseState, averagedDirection]
  · norm_num [querySamples, List.filter, averagedDirection, curveballSampleState, baseState]

/-- C1 (amended): with curveball mode disabled, a commit from Idle with at
least one in-window sample sets exactly the componentwise average of the
in-window samples scaled by throwStrength as the velocity and marks the
state Flying. -/
theorem C1_commit_velocity_is_scaled_average (s : SimState) (tapTimestamp : ℚ)
    (hthrown : s.isThrown = false) (hcb : s.enableCurveball = false)
    (hsamp : querySamples s.history (tapTimestamp - s.throwWindowMs)
        (tapTimestamp + s.lookaheadDelayMs) ≠ []) :
    (executeActualThrowLogic s tapTimestamp).isThrown = true ∧
    (executeActualThrowLogic s tapTimestamp).velX =
      ((averagedDirection (querySamples s.history (tapTimestamp - s.throwWindowMs)
          (tapTimestamp + s.lookaheadDelayMs))).1 : ℝ) * (s.throwStrength : ℝ) ∧
    (executeActualThrowLogic s tapTimestamp).velY =
      ((averagedDirection (querySamples s.history (tapTimestamp - s.throwWindowMs)
          (tapTimestamp + s.lookaheadDelayMs))).2 : ℝ) * (s.throwStrength : ℝ) := by
  rw [executeActualThrowLogic_noCurveball s tapTimestamp hthrown hcb hsamp]
  exact ⟨rfl, rfl, rfl⟩

/-- C1 witness: the end-to-end scenario of the spec — history [(1, 0)] at
t = 0, throwWindowMs 50, lookaheadDelayMs 0, throwStrength 500, tap at
t = 10 — commits velocity exactly (500, 0) and the state Flying. -/
theorem C1_commit_velocity_is_scaled_average_witness :
    ({ baseState with history := [{ dx := 1, dy := 0, timestamp := 0 }] } : SimState).isThrown = false ∧
    ({ baseState with history := [{ dx := 1, dy := 0, timestamp := 0 }] } : SimState).enableCurveball = false ∧
    querySamples ({ baseState with
        history := [{ dx := 1, dy := 0, timestamp := 0 }] } : SimState).history
      (10 - ({ baseState with
        history := [{ dx := 1, dy := 0, timestamp := 0 }] } : SimState).throwWindowMs)
      (10 + ({ baseState with
        history := [{ dx := 1, dy := 0, timestamp := 0 }] } : SimState).lookaheadDelayMs) ≠ [] ∧
    (executeActualThrowLogic
        { baseState with history := [{ dx := 1, dy := 0, timestamp := 0 }] } 10).isThrown = true ∧
    (executeActualThrowLogic
        { baseState with history := [{ dx := 1, dy := 0, timestamp := 0 }] } 10).velX = 500 ∧
    (executeActualThrowLogic
        { baseState with history := [{ dx := 1, dy := 0, timestamp := 0 }] } 10).velY = 0 := by
  have hsamp : querySamples ({ baseState with
      history := [{ dx := 1, dy := 0, timestamp := 0 }] } : SimState).history
      (10 - ({ baseState with
        history := [{ dx := 1, dy := 0, timestamp := 0 }] } : SimState).throwWindowMs)
      (10 + ({ baseState with
        history := [{ dx := 1, dy := 0, timestamp := 0 }] } : SimState).lookaheadDelayMs) ≠ [] := by
    show querySamples [({ dx := 1, dy := 0, timestamp := 0 } : Sample)] (10 - 50) (10 + 0) ≠ []
    norm_num [querySamples, List.filter]
  obtain ⟨h1, h2, h3⟩ := C1_commit_velocity_is_scaled_average
    { baseState with history := [{ dx := 1, dy := 0, timestamp := 0 }] } 10 rfl rfl hsamp
  refine ⟨rfl, rfl, hsamp, h1, ?_, ?_⟩
  · rw [h2]
    norm_num [querySamples, List.filter, averagedDirection, baseState]
  · rw [h3]
    norm_num [querySamples, List.filter, averagedDirection, baseState]

/-- First accumulator of the exit-spin loop started at index j: the weighted
sum of pair angular velocities, pair i (0-based within the remaining list)
weighted j + i + 1. -/
theorem endingCurveAux_fst (l : List Segment) (j : ℕ) :
    (endingCurveAux l j).1 =
      ∑ i ∈ Finset.range (l.length - 1),
        pairAngularVelocity (l.getD i defaultSegment) (l.getD (i + 1) defaultSegment) *
          ((j : ℝ) + (i : ℝ) + 1) := by
  induction l generalizing j with
  | nil => simp [endingCurveAux]
  | cons a rest ih =>
    cases rest with
    | nil => simp [endingCurveAux]
    | cons b rest2 =>
      have hlen : (a :: b :: rest2).length - 1 = ((b :: rest2).length - 1) + 1 := by simp
      calc (endingCurveAux (a :: b :: rest2) j).1
          = (endingCurveAux (b :: rest2) (j + 1)).1 +
              pairAngularVelocity a b * ((j : ℝ) + 1) := by
            simp [endingCurveAux]
        _ = (∑ i ∈ Finset.range ((b :: rest2).length - 1),
              pairAngularVelocity ((b :: rest2).getD i defaultSegment)
                ((b :: rest2).getD (i + 1) defaultSegment) *
                (((j + 1 : ℕ) : ℝ) + (i : ℝ) + 1)) +
              pairAngularVelocity a b * ((j : ℝ) + 1) := by rw [ih (j + 1)]
        _ = ∑ i ∈ Finset.range ((a :: b :: rest2).length - 1),
              pairAngularVelocity ((a :: b :: rest2).getD i defaultSegment)
                ((a :: b :: rest2).getD (i + 1) defaultSegment) *
                ((j : ℝ) + (i : ℝ) + 1) := by
            rw [hlen, Finset.sum_range_succ']
            congr 1
            · refine Finset.sum_congr rfl fun i hi => ?_
              simp only [List.getD_cons_succ]
              push_cast
              ring
            · simp only [List.getD_cons_zero, List.getD_cons_succ]
              push_cast
              ring

/-- Second accumulator of the exit-spin loop started at index j: the sum of
the weights. -/
theorem endingCurveAux_sumWeights (l : List Segment) (j : ℕ) :
    (endingCurveAux l j).2.1 =
      ∑ i ∈ Finset.range (l.length - 1), ((j : ℝ) + (i : ℝ) + 1) := by
  induction l generalizing j with
  | nil => simp [endingCurveAux]
  | cons a rest ih =>
    cases rest with
    | nil => simp [endingCurveAux]
    | cons b rest2 =>
      have hlen : (a :: b :: rest2).length - 1 = ((b :: rest2).length - 1) + 1 := by simp
      calc (endingCurveAux (a :: b :: rest2) j).2.1
          = (endingCurveAux (b :: rest2) (j + 1)).2.1 + ((j : ℝ) + 1) := by
            simp [endingCurveAux]
        _ = (∑ i ∈ Finset.range ((b :: rest2).length - 1),
              (((j + 1 : ℕ) : ℝ) + (i : ℝ) + 1)) + ((j : ℝ) + 1) := by rw [ih (j + 1)]
        _ = ∑ i ∈ Finset.range ((a :: b :: rest2).length - 1), ((j : ℝ) + (i : ℝ) + 1) := by
            rw [hlen, Finset.sum_range_succ']
            congr 1
            · refine Finset.sum_congr rfl fun i hi => ?_
              push_cast
              ring
            · push_cast
              ring

/-- Third accumulator of the exit-spin loop: the number of adjacent pairs. -/
theorem endingCurveAux_count (l : List Segment) (j : ℕ) :
    (endingCurveAux l j).2.2 = l.length - 1 := by
  induction l generalizing j with
  | nil => simp [endingCurveAux]
  | cons a rest ih =>
    cases rest with
    | nil => simp [endingCurveAux]
    | cons b rest2 =>
      have := ih (j + 1)
      simp only [endingCurveAux, List.length_cons] at this ⊢
      omega

/-- C5 (amended): with at least 2 usable segments the exit spin equals the
weighted average over adjacent segment pairs of their wrapped angular
differences divided by the second segment's duration, pair i weighted i + 1;
with fewer than 2 segments (hence no adjacent pair) it is 0. -/
theorem C5_endingAngularVelocity_weighted_average :
    (∀ segs : List Segment, 2 ≤ segs.length →
        calculatedEndingAngularVelocity segs = specEndingAngularVelocity segs) ∧
    (∀ segs : List Segment, segs.length < 2 →
        calculatedEndingAngularVelocity segs = 0) := by
  constructor
  · intro segs h2
    have hcount := endingCurveAux_count segs 0
    have hws := endingCurveAux_fst segs 0
    have hsw := endingCurveAux_sumWeights segs 0
    have hposn : 0 < (endingCurveAux segs 0).2.2 := by omega
    have hpossw : 0 < (endingCurveAux segs 0).2.1 := by
      rw [hsw]
      refine Finset.sum_pos (fun i hi => by positivity) ?_
      refine Finset.nonempty_range_iff.mpr ?_
      omega
    unfold calculatedEndingAngularVelocity
    rw [if_pos (by simpa [MIN_SEGMENTS_FOR_ENDING_CURVE] using h2)]
    dsimp only
    rw [if_pos ⟨hposn, hpossw⟩, hws, hsw]
    unfold specEndingAngularVelocity
    congr 1
    · refine Finset.sum_congr rfl fun i hi => ?_
      norm_num
    · refine Finset.sum_congr rfl fun i hi => ?_
      norm_num
  · intro segs h2
    unfold calculatedEndingAngularVelocity
    rw [if_neg (by simp [MIN_SEGMENTS_FOR_ENDING_CURVE]; omega)]

/-- C5 counterexample: a commit-time plan built from samples (1,0) at t = 0
and (0,1) at t = 100 has exactly one adjacent segment-pair (fewer than 2),
yet its endingAngularVelocity is the nonzero (pi/2)/0.2 — the code zeroes
the estimate only below 2 segments, not below 2 pairs. -/
theorem C5_single_pair_nonzero_counterexample :
    (buildPathSegments [{ dx := 1, dy := 0, timestamp := 0 },
        { dx := 0, dy := 1, timestamp := 100 }]).length = 2 ∧
    ((buildPathSegments [{ dx := 1, dy := 0, timestamp := 0 },
        { dx := 0, dy := 1, timestamp := 100 }]).zip
      (buildPathSegments [{ dx := 1, dy := 0, timestamp := 0 },
        { dx := 0, dy := 1, timestamp := 100 }]).tail).length = 1 ∧
    calculatedEndingAngularVelocity
        (buildPathSegments [{ dx := 1, dy := 0, timestamp := 0 },
          { dx := 0, dy := 1, timestamp := 100 }]) ≠ 0 := by
  have hseg : buildPathSegments [{ dx := 1, dy := 0, timestamp := 0 },
      { dx := 0, dy := 1, timestamp := 100 }] =
      [{ dx := 1, dy := 0, duration := max 0.02 (100 / 1000) },
       { dx := 0, dy := 1, duration := 0.2 }] := by
    norm_num [buildPathSegments, Real.sqrt_one]
  have hdur : max (0.02 : ℝ) (100 / 1000) = 0.1 := by
    rw [max_eq_right (by norm_num)]
    norm_num
  have hpair : pairAngularVelocity { dx := 1, dy := 0, duration := 0.1 }
      { dx := 0, dy := 1, duration := 0.2 } = (Real.pi / 2) / (0.2 : ℝ) := by
    unfold pairAngularVelocity atan2
    have h1 : (⟨1, 0⟩ : ℂ) = 1 := by
      apply Complex.ext <;> simp
    have h2 : (⟨0, 1⟩ : ℂ) = Complex.I := by
      apply Complex.ext <;> simp
    dsimp only
    rw [h1, h2, Complex.arg_one, Complex.arg_I]
    rw [if_pos (by norm_num : (0.001 : ℝ) < 0.2)]
    rw [show Real.pi / 2 - 0 = Real.pi / 2 by ring]
    unfold wrapAngle
    rw [if_neg (by nlinarith [Real.pi_pos]), if_neg (by nlinarith [Real.pi_pos])]
  refine ⟨by rw [hseg]; rfl, by rw [hseg]; rfl, ?_⟩
  rw [hseg, hdur]
  unfold calculatedEndingAngularVelocity
  rw [if_pos (by norm_num [MIN_SEGMENTS_FOR_ENDING_CURVE])]
  dsimp only
  simp only [endingCurveAux, hpair]
  rw [if_pos (by norm_num)]
  have hpi := Real.pi_pos
  norm_num
  positivity

/-- C5 witness: the weighted-average characterization instantiated at a
concrete two-segment plan. -/
theorem C5_endingAngularVelocity_weighted_average_witness :
    2 ≤ ([{ dx := 1, dy := 0, duration := 0.1 },
          { dx := 0, dy := 1, duration := 0.2 }] : List Segment).length ∧
    calculatedEndingAngularVelocity
        [{ dx := 1, dy := 0, duration := 0.1 }, { dx := 0, dy := 1, duration := 0.2 }] =
      specEndingAngularVelocity
        [{ dx := 1, dy := 0, duration := 0.1 }, { dx := 0, dy := 1, duration := 0.2 }] :=
  ⟨by norm_num,
    C5_endingAngularVelocity_weighted_average.1
      [{ dx := 1, dy := 0, duration := 0.1 }, { dx := 0, dy := 1, duration := 0.2 }]
      (by norm_num)⟩

/-- The clamped coordinate stays inside [lo, hi] whenever lo ≤ hi. -/
theorem clampAxis_mem (pos lo hi vel : ℝ) (h : lo ≤ hi) :
    lo ≤ (clampAxis pos lo hi vel).1 ∧ (clampAxis pos lo hi vel).1 ≤ hi := by
  unfold clampAxis
  dsimp only
  split_ifs with h1 h2 h3 <;> constructor <;> dsimp only <;> linarith

/-- Whenever the integrated coordinate lies outside [lo, hi], the clamp
zeroes that axis's velocity. -/
theorem clampAxis_clamped_vel (pos lo hi vel : ℝ) (_h : lo ≤ hi)
    (hc : pos < lo ∨ hi < pos) : (clampAxis pos lo hi vel).2 = 0 := by
  unfold clampAxis
  dsimp only
  split_ifs with h1 h2 h3 <;> try rfl
  rcases hc with hc | hc <;> [exact absurd hc h1; exact absurd hc h3]

/-- The clamp either keeps the incoming velocity or zeroes it. -/
theorem clampAxis_vel_cases (pos lo hi vel : ℝ) :
    (clampAxis pos lo hi vel).2 = vel ∨ (clampAxis pos lo hi vel).2 = 0 := by
  unfold clampAxis
  dsimp only
  split_ifs <;> simp

/-- C4: on every tick taken while Flying, with the screen at least twice the
padding in each dimension, the post-tick position lies in the padded
rectangle on both axes, and an axis whose integrated position left the
rectangle has its velocity zeroed. -/
theorem C4_tick_clamps_position_and_velocity (s : SimState) (dt : ℝ)
    (hthrown : s.isThrown = true)
    (hW : 2 * BOUNDARY_PADDING ≤ s.innerWidth)
    (hH : 2 * BOUNDARY_PADDING ≤ s.innerHeight) :
    (BOUNDARY_PADDING ≤ (useFrameTick s dt).posX ∧
      (useFrameTick s dt).posX ≤ s.innerWidth - BOUNDARY_PADDING) ∧
    (BOUNDARY_PADDING ≤ (useFrameTick s dt).posY ∧
      (useFrameTick s dt).posY ≤ s.innerHeight - BOUNDARY_PADDING) ∧
    ((s.posX + s.velX * dt < BOUNDARY_PADDING ∨
        s.innerWidth - BOUNDARY_PADDING < s.posX + s.velX * dt) →
      (useFrameTick s dt).velX = 0) ∧
    ((s.posY + s.velY * dt < BOUNDARY_PADDING ∨
        s.innerHeight - BOUNDARY_PADDING < s.posY + s.velY * dt) →
      (useFrameTick s dt).velY = 0) := by
  have hWle : BOUNDARY_PADDING ≤ s.innerWidth - BOUNDARY_PADDING := by linarith
  have hHle : BOUNDARY_PADDING ≤ s.innerHeight - BOUNDARY_PADDING := by linarith
  unfold useFrameTick
  rw [if_pos hthrown]
  unfold frictionStopClamp
  dsimp only
  exact ⟨clampAxis_mem _ _ _ _ hWle, clampAxis_mem _ _ _ _ hHle,
    fun hc => clampAxis_clamped_vel _ _ _ _ hWle hc,
    fun hc => clampAxis_clamped_vel _ _ _ _ hHle hc⟩

/-- C4 witness: the invariant at a concrete flying state and tick. -/
theorem C4_tick_clamps_position_and_velocity_witness :
    flyingState.isThrown = true ∧
    2 * BOUNDARY_PADDING ≤ flyingState.innerWidth ∧
    2 * BOUNDARY_PADDING ≤ flyingState.innerHeight ∧
    ((BOUNDARY_PADDING ≤ (useFrameTick flyingState 0.01).posX ∧
      (useFrameTick flyingState 0.01).posX ≤ flyingState.innerWidth - BOUNDARY_PADDING) ∧
    (BOUNDARY_PADDING ≤ (useFrameTick flyingState 0.01).posY ∧
      (useFrameTick flyingState 0.01).posY ≤ flyingState.innerHeight - BOUNDARY_PADDING) ∧
    ((flyingState.posX + flyingState.velX * 0.01 < BOUNDARY_PADDING ∨
        flyingState.innerWidth - BOUNDARY_PADDING <
          flyingState.posX + flyingState.velX * 0.01) →
      (useFrameTick flyingState 0.01).velX = 0) ∧
    ((flyingState.posY + flyingState.velY * 0.01 < BOUNDARY_PADDING ∨
        flyingState.innerHeight - BOUNDARY_PADDING <
          flyingState.posY + flyingState.velY * 0.01) →
      (useFrameTick flyingState 0.01).velY = 0)) :=
  ⟨rfl, by norm_num [BOUNDARY_PADDING, flyingState, baseState],
    by norm_num [BOUNDARY_PADDING, flyingState, baseState],
    C4_tick_clamps_position_and_velocity flyingState 0.01 rfl
      (by norm_num [BOUNDARY_PADDING, flyingState, baseState])
      (by norm_num [BOUNDARY_PADDING, flyingState, baseState])⟩

/-- The interpolated friction factor always lies between the high-speed and
the low-speed constants. -/
theorem dynamicFrictionFactor_bounds (speed : ℝ) :
    FRICTION_FACTOR_HIGH_SPEED ≤ dynamicFrictionFactor speed ∧
      dynamicFrictionFactor speed ≤ FRICTION_FACTOR_LOW_SPEED := by
  unfold dynamicFrictionFactor FRICTION_FACTOR_HIGH_SPEED FRICTION_FACTOR_LOW_SPEED
    MIN_THROW_SPEED_THRESHOLD FRICTION_TRANSITION_MAX_SPEED
  split_ifs with h1 h2
  · constructor <;> norm_num
  · constructor <;> norm_num
  · push_neg at h1 h2
    dsimp only
    have hr1 : (speed - 5.0) / (300.0 - 5.0) < 1 := by
      rw [div_lt_one (by norm_num)]
      linarith
    have hr0 : 0 < (speed - 5.0) / (300.0 - 5.0) := by
      apply div_pos <;> [linarith; norm_num]
    constructor <;> nlinarith

/-- A rotation of the velocity vector preserves its squared magnitude. -/
theorem rotated_sq_sum (vx vy c : ℝ) :
    (vx * Real.cos c - vy * Real.sin c) ^ 2 + (vx * Real.sin c + vy * Real.cos c) ^ 2 =
      vx ^ 2 + vy ^ 2 := by
  have h := Real.sin_sq_add_cos_sq c
  linear_combination (vx ^ 2 + vy ^ 2) * h

/-- Scaling both components by a nonnegative factor scales the magnitude. -/
theorem sqrt_scaled (a b c : ℝ) (hc : 0 ≤ c) :
    Real.sqrt ((a * c) ^ 2 + (b * c) ^ 2) = Real.sqrt (a ^ 2 + b ^ 2) * c := by
  rw [show (a * c) ^ 2 + (b * c) ^ 2 = (a ^ 2 + b ^ 2) * c ^ 2 by ring,
    Real.sqrt_mul (by positivity), Real.sqrt_sq hc]

/-- Behaviour of the friction / stop / clamp tail on a velocity whose
magnitude is the passed current speed, for a positive sane tick: the
magnitude strictly decreases, the thrown flag drops exactly when the
post-friction speed crosses the minimum threshold, and in that case the
velocity is exactly zero. -/
theorem frictionStopClamp_spec (s : SimState) (delta newX0 newY0 speedB wx wy : ℝ)
    (plan1 : PathPlan) (cont1 : ℝ)
    (hsp : speedB = Real.sqrt (wx ^ 2 + wy ^ 2))
    (hdt : 0 < delta) (hdt6 : FRICTION_FACTOR_LOW_SPEED * delta < 1)
    (hpos : 0 < speedB) :
    Real.sqrt ((frictionStopClamp s delta newX0 newY0 speedB (wx, wy) plan1 cont1).velX ^ 2 +
        (frictionStopClamp s delta newX0 newY0 speedB (wx, wy) plan1 cont1).velY ^ 2) <
      speedB ∧
    ((frictionStopClamp s delta newX0 newY0 speedB (wx, wy) plan1 cont1).isThrown = false ↔
      speedB * (1 - dynamicFrictionFactor speedB * delta) < MIN_THROW_SPEED_THRESHOLD) ∧
    ((frictionStopClamp s delta newX0 newY0 speedB (wx, wy) plan1 cont1).isThrown = false →
      (frictionStopClamp s delta newX0 newY0 speedB (wx, wy) plan1 cont1).velX = 0 ∧
      (frictionStopClamp s delta newX0 newY0 speedB (wx, wy) plan1 cont1).velY = 0) := by
  have hfb := dynamicFrictionFactor_bounds speedB
  have hf_pos : 0 < dynamicFrictionFactor speedB := by
    have h14 : (0 : ℝ) < FRICTION_FACTOR_HIGH_SPEED := by norm_num [FRICTION_FACTOR_HIGH_SPEED]
    linarith [hfb.1]
  have hscale_pos : 0 < 1 - dynamicFrictionFactor speedB * delta := by
    have := mul_le_mul_of_nonneg_right hfb.2 (le_of_lt hdt)
    linarith
  have hscale_lt : 1 - dynamicFrictionFactor speedB * delta < 1 := by nlinarith
  unfold frictionStopClamp
  dsimp only
  set scale := 1 - dynamicFrictionFactor speedB * delta with hscaledef
  have hafter : Real.sqrt ((wx * scale) ^ 2 + (wy * scale) ^ 2) = speedB * scale := by
    rw [sqrt_scaled wx wy scale (le_of_lt hscale_pos), hsp]
  have hafter_lt : speedB * scale < speedB := by nlinarith
  rw [hafter]
  split_ifs with hstop
  · have hx0 : (clampAxis newX0 BOUNDARY_PADDING (s.innerWidth - BOUNDARY_PADDING) 0).2 = 0 := by
      rcases clampAxis_vel_cases newX0 BOUNDARY_PADDING (s.innerWidth - BOUNDARY_PADDING) 0 with
        h | h <;> exact h
    have hy0 : (clampAxis newY0 BOUNDARY_PADDING (s.innerHeight - BOUNDARY_PADDING) 0).2 = 0 := by
      rcases clampAxis_vel_cases newY0 BOUNDARY_PADDING (s.innerHeight - BOUNDARY_PADDING) 0 with
        h | h <;> exact h
    refine ⟨?_, iff_of_true rfl hstop, fun _ => ⟨hx0, hy0⟩⟩
    rw [hx0, hy0]
    simpa using hpos
  · refine ⟨?_, iff_of_false (by simp) hstop, fun h => by simp at h⟩
    rcases clampAxis_vel_cases newX0 BOUNDARY_PADDING (s.innerWidth - BOUNDARY_PADDING)
        (wx * scale) with hx | hx <;>
      rcases clampAxis_vel_cases newY0 BOUNDARY_PADDING (s.innerHeight - BOUNDARY_PADDING)
          (wy * scale) with hy | hy <;>
      rw [hx, hy] <;>
      refine lt_of_le_of_lt (le_trans (Real.sqrt_le_sqrt
        (by nlinarith [sq_nonneg (wx * scale), sq_nonneg (wy * scale)]))
        (le_of_eq hafter)) hafter_lt

/-- C3 counterexample: the claimed strict tick-over-tick speed decrease
fails for a large frame delta.  From velocity (500, 0) a tick with
delta = 2 s (so frictionFactor * delta = 2.8 > 1) flips the velocity to
(-900, 0): speed grows from 500 to 900. -/
theorem C3_large_dt_speed_increases_counterexample :
    fastFlyingState.isThrown = true ∧
    ¬ planIsActive fastFlyingState.enableCurveball fastFlyingState.plan ∧
    (useFrameTick fastFlyingState 2).velX = -900 ∧
    Real.sqrt (fastFlyingState.velX ^ 2 + fastFlyingState.velY ^ 2) <
      Real.sqrt ((useFrameTick fastFlyingState 2).velX ^ 2 +
        (useFrameTick fastFlyingState 2).velY ^ 2) := by
  have h250000 : Real.sqrt 250000 = 500 := by
    rw [show (250000 : ℝ) = 500 ^ 2 by norm_num]
    exact Real.sqrt_sq (by norm_num)
  have h810000 : Real.sqrt 810000 = 900 := by
    rw [show (810000 : ℝ) = 900 ^ 2 by norm_num]
    exact Real.sqrt_sq (by norm_num)
  refine ⟨rfl, by simp [planIsActive, fastFlyingState, baseState, PathPlan.empty], ?_, ?_⟩ <;>
    norm_num [useFrameTick, frictionStopClamp, planIsActive, dynamicFrictionFactor,
      clampAxis, fastFlyingState, baseState, PathPlan.empty, MIN_THROW_SPEED_THRESHOLD,
      FRICTION_FACTOR_HIGH_SPEED, FRICTION_FACTOR_LOW_SPEED, FRICTION_TRANSITION_MAX_SPEED,
      BOUNDARY_PADDING, h250000, h810000]

/-- C3 (amended): on a Flying tick with no active path plan, a positive
delta small enough that frictionFactor * delta stays below 1, and nonzero
speed, the speed strictly decreases; the thrown flag drops exactly when the
post-friction speed falls below the minimum threshold, and then the velocity
is exactly (0, 0).  In particular, from velocity (500, 0) with delta = 0.01
one tick yields velocity (493, 0) of magnitude 493 and advances position.x
by exactly 5. -/
theorem C3_friction_monotone_speed_decrease :
    (∀ (s : SimState) (dt : ℝ),
      s.isThrown = true →
      ¬ planIsActive s.enableCurveball s.plan →
      0 < dt →
      FRICTION_FACTOR_LOW_SPEED * dt < 1 →
      0 < Real.sqrt (s.velX ^ 2 + s.velY ^ 2) →
      Real.sqrt ((useFrameTick s dt).velX ^ 2 + (useFrameTick s dt).velY ^ 2) <
          Real.sqrt (s.velX ^ 2 + s.velY ^ 2) ∧
        ((useFrameTick s dt).isThrown = false ↔
          Real.sqrt (s.velX ^ 2 + s.velY ^ 2) *
              (1 - dynamicFrictionFactor (Real.sqrt (s.velX ^ 2 + s.velY ^ 2)) * dt) <
            MIN_THROW_SPEED_THRESHOLD) ∧
        ((useFrameTick s dt).isThrown = false →
          (useFrameTick s dt).velX = 0 ∧ (useFrameTick s dt).velY = 0)) ∧
    ((useFrameTick flyingState 0.01).posX = flyingState.posX + 5 ∧
      (useFrameTick flyingState 0.01).velX = 493 ∧
      (useFrameTick flyingState 0.01).velY = 0 ∧
      (useFrameTick flyingState 0.01).isThrown = true ∧
      Real.sqrt ((useFrameTick flyingState 0.01).velX ^ 2 +
        (useFrameTick flyingState 0.01).velY ^ 2) = 493) := by
  constructor
  · intro s dt hthrown hplan hdt hdt6 hpos
    unfold useFrameTick
    rw [if_pos hthrown]
    dsimp only
    rw [if_neg hplan]
    dsimp only
    split_ifs with hc1 hc2 hc3
    · exact frictionStopClamp_spec s dt _ _ _ _ _ _ _ (by rw [rotated_sq_sum]) hdt hdt6 hpos
    · exact frictionStopClamp_spec s dt _ _ _ _ _ _ _ (by rw [rotated_sq_sum]) hdt hdt6 hpos
    · exact frictionStopClamp_spec s dt _ _ _ _ _ _ _ rfl hdt hdt6 hpos
    · exact frictionStopClamp_spec s dt _ _ _ _ _ _ _ rfl hdt hdt6 hpos
  · have h250000 : Real.sqrt 250000 = 500 := by
      rw [show (250000 : ℝ) = 500 ^ 2 by norm_num]
      exact Real.sqrt_sq (by norm_num)
    have h243049 : Real.sqrt 243049 = 493 := by
      rw [show (243049 : ℝ) = 493 ^ 2 by norm_num]
      exact Real.sqrt_sq (by norm_num)
    refine ⟨?_, ?_, ?_, ?_, ?_⟩ <;>
      norm_num [useFrameTick, frictionStopClamp, planIsActive, dynamicFrictionFactor,
        clampAxis, flyingState, baseState, PathPlan.empty, MIN_THROW_SPEED_THRESHOLD,
        FRICTION_FACTOR_HIGH_SPEED, FRICTION_FACTOR_LOW_SPEED, FRICTION_TRANSITION_MAX_SPEED,
        BOUNDARY_PADDING, h250000, h243049]

/-- C3 witness: the monotone-decrease part instantiated at the flying base
state with delta = 0.01. -/
theorem C3_friction_monotone_speed_decrease_witness :
    flyingState.isThrown = true ∧
    ¬ planIsActive flyingState.enableCurveball flyingState.plan ∧
    (0 : ℝ) < 0.01 ∧
    FRICTION_FACTOR_LOW_SPEED * 0.01 < 1 ∧
    0 < Real.sqrt (flyingState.velX ^ 2 + flyingState.velY ^ 2) ∧
    (Real.sqrt ((useFrameTick flyingState 0.01).velX ^ 2 +
          (useFrameTick flyingState 0.01).velY ^ 2) <
        Real.sqrt (flyingState.velX ^ 2 + flyingState.velY ^ 2) ∧
      ((useFrameTick flyingState 0.01).isThrown = false ↔
        Real.sqrt (flyingState.velX ^ 2 + flyingState.velY ^ 2) *
            (1 - dynamicFrictionFactor
              (Real.sqrt (flyingState.velX ^ 2 + flyingState.velY ^ 2)) * 0.01) <
          MIN_THROW_SPEED_THRESHOLD) ∧
      ((useFrameTick flyingState 0.01).isThrown = false →
        (useFrameTick flyingState 0.01).velX = 0 ∧
        (useFrameTick flyingState 0.01).velY = 0)) := by
  have hpos : 0 < Real.sqrt (flyingState.velX ^ 2 + flyingState.velY ^ 2) := by
    apply Real.sqrt_pos.mpr
    norm_num [flyingState, baseState]
  exact ⟨rfl, by simp [planIsActive, flyingState, baseState, PathPlan.empty],
    by norm_num, by norm_num [FRICTION_FACTOR_LOW_SPEED], hpos,
    C3_friction_monotone_speed_decrease.1 flyingState 0.01 rfl
      (by simp [planIsActive, flyingState, baseState, PathPlan.empty])
      (by norm_num) (by norm_num [FRICTION_FACTOR_LOW_SPEED]) hpos⟩

end Flickmouse
